import Mathlib

/-!
Shallow embedding of `classes_pbi_api.py` (class `PBIManager`).

The Python class talks to two external boundaries: an identity provider
(via the `msal` library, inside `get_token`) and the analytics REST API
(via the `requests` library).  Both are modelled as explicit inputs:

* the analytics API is an environment `Http : HttpRequest → HttpResponse`;
* the identity provider's token response is passed to `get_token` as a
  JSON value (the dict returned by `acquire_token_for_client`).

Every method returns, besides its Python return value (as `Except`,
since the methods raise exceptions), the post-state of the object and a
trace of observable effects (`Event`): network calls and file
operations.  Python's dynamic JSON values are modelled by the inductive
`Json`; bearer tokens are opaque strings (their only uses in the source
are truthiness tests and string interpolation into headers).
-/

/-- JSON values, as produced by `response.json()` in the source. -/
inductive Json where
  | null : Json
  | bool (b : Bool) : Json
  | num (n : Int) : Json
  | str (s : String) : Json
  | arr (elems : List Json) : Json
  | obj (fields : List (String × Json)) : Json
deriving Repr

/-- Python `d[k]` / `d.get(k)` lookup on a JSON value: `some v` when the
value is an object containing key `k`, otherwise `none` (Python raises
`KeyError`/`TypeError`, or `.get` returns the default). -/
def jsonKey : Json → String → Option Json
  | .obj fields, k => (fields.find? (fun kv => kv.1 == k)).map (fun kv => kv.2)
  | _, _ => none

/-- Python `d.get(k)` (one-argument form): `None` when the key is absent. -/
def jsonGet (j : Json) (k : String) : Json :=
  (jsonKey j k).getD Json.null

/-- Python `d.get(k, default)`. -/
def jsonGetD (j : Json) (k : String) (d : Json) : Json :=
  (jsonKey j k).getD d

/-- Python `xs[i]` on a JSON value for a non-negative index: `some v`
for an array long enough, otherwise `none` (`IndexError`/`KeyError`). -/
def jsonIdx : Json → Nat → Option Json
  | .arr xs, i => xs.get? i
  | _, _ => none

/-- Elements of a JSON array; a non-array yields `[]`.  In the source
the values this is applied to come from collection endpoints whose
`value` field is a JSON array. -/
def jsonAsArr : Json → List Json
  | .arr xs => xs
  | _ => []

/-- Python truthiness of a JSON value (`if dataset_id:`). -/
def jsonTruthy : Json → Bool
  | .null => false
  | .bool b => b
  | .num n => n != 0
  | .str s => !s.isEmpty
  | .arr xs => !xs.isEmpty
  | .obj fields => !fields.isEmpty

/-- Python `f"...{v}..."` interpolation of a JSON value.  In the source
this is only applied to dataset ids, which the API contract makes
strings; compound values are abbreviated. -/
def jsonAsStr : Json → String
  | .str s => s
  | .num n => toString n
  | .bool true => "True"
  | .bool false => "False"
  | .null => "None"
  | .arr _ => "[...]"
  | .obj _ => "{...}"

/-- The key/value pairs of a JSON object; a non-object has none. -/
def objFields : Json → List (String × Json)
  | .obj fields => fields
  | _ => []

/-- A pandas DataFrame, restricted to what the source builds: named
columns and rows of optional JSON cells (`none` models a missing field
becoming `NaN`). -/
structure DataFrame where
  columns : List String
  rows : List (List (Option Json))
deriving Repr

/-- The column order `pd.DataFrame(list_of_dicts)` infers: union of the
records' keys in first-seen order. -/
def recordCols (records : List Json) : List String :=
  records.foldl
    (fun acc r =>
      (objFields r).foldl
        (fun acc2 kv => if acc2.contains kv.1 then acc2 else acc2 ++ [kv.1]) acc)
    []

/-- `pd.DataFrame(records, columns=cols)`: one row per record, each row
listing the record's value at each column (`none` = missing → NaN). -/
def dfOfRecords (records : List Json) (cols : List String) : DataFrame :=
  { columns := cols
    rows := records.map (fun r => cols.map (fun c => jsonKey r c)) }

/-- The exceptions the source raises, as distinct constructors.  The
source raises plain `Exception`s with distinct messages, except for the
query-shape failure, which re-raises the original `KeyError`/
`IndexError`/`ValueError` — a class distinct from the others. -/
inductive PBIError where
  | tokenError : PBIError
  | notAuthenticated : PBIError
  | apiError (status : Nat) (body : String) : PBIError
  | queryResultShape : PBIError
deriving Repr, DecidableEq

/-- An HTTP request as issued through `requests.get`/`requests.post`. -/
structure HttpRequest where
  method : String
  url : String
  headers : List (String × String)
  jsonBody : Option Json
deriving Repr

/-- An HTTP response: status code, parsed JSON body (`response.json()`)
and raw text (`response.text`, used in error messages). -/
structure HttpResponse where
  status_code : Nat
  body : Json
  text : String
deriving Repr

/-- The analytics API boundary: what the network answers to each
request.  Modelling it as a function makes every operation
deterministic in the environment. -/
def Http := HttpRequest → HttpResponse

/-- Observable effects of a method: network round-trips and the file
operations of the documentation export. -/
inductive Event where
  | netCall (req : HttpRequest) : Event
  | fileCreate (path : String) : Event
  | sheetWrite (sheet : String) : Event
  | fileSave (path : String) : Event
deriving Repr

/-- The network calls appearing in a trace, in order. -/
def netCalls (evs : List Event) : List HttpRequest :=
  evs.filterMap (fun e =>
    match e with
    | .netCall r => some r
    | _ => none)

/-- The object state of `PBIManager`: the fields set in `__init__`. -/
structure PBIManager where
  tenant_id : String
  client_id : String
  client_secret : String
  scope : List String
  access_token : Option String
  authority : String
deriving Repr, DecidableEq

/-- Result of a method call: Python return value or raised exception,
the post-state of the object, and the trace of effects. -/
structure MResult (α : Type) where
  res : Except PBIError α
  state : PBIManager
  events : List Event

/-- `PBIManager.__init__`: stores the credentials, wraps the scope in a
singleton list, leaves the token `None` and derives the authority URL.
Its body consists only of attribute assignments, so its effect trace is
empty. -/
def PBIManager.init (tenant_id client_id client_secret scope : String) :
    PBIManager × List Event :=
  ({ tenant_id := tenant_id
     client_id := client_id
     client_secret := client_secret
     scope := [scope]
     access_token := none
     authority := "https://login.microsoftonline.com/" ++ tenant_id }, [])

/-- Python truthiness of the token field (`if not self.access_token`):
`None` and the empty string are falsy. -/
def tokenFalsy : Option String → Bool
  | none => true
  | some s => s.isEmpty

/-- `PBIManager.get_token`: the msal call is external, so the identity
provider's response dict is an input.  The source stores
`token_response.get('access_token')` into the field first and only then
checks truthiness, raising on a falsy token.  A non-string or absent
`access_token` entry becomes `none` (Python would store the raw value;
the API contract makes tokens strings). -/
def PBIManager.get_token (m : PBIManager) (token_response : Json) :
    Except PBIError Unit × PBIManager :=
  let new_token : Option String :=
    match jsonKey token_response "access_token" with
    | some (Json.str s) => some s
    | _ => none
  let m2 := { m with access_token := new_token }
  if tokenFalsy m2.access_token then
    (.error .tokenError, m2)
  else
    (.ok (), m2)

/-- The GET request `get_list_of_datasets` issues. -/
def datasetsRequest (tok workspace_id : String) : HttpRequest :=
  { method := "GET"
    url := "https://api.powerbi.com/v1.0/myorg/groups/" ++ workspace_id ++ "/datasets"
    headers := [("Authorization", "Bearer " ++ tok)]
    jsonBody := none }

/-- `PBIManager.get_list_of_datasets`. -/
def PBIManager.get_list_of_datasets (m : PBIManager) (env : Http) (workspace_id : String) :
    MResult DataFrame :=
  match m.access_token with
  | none => ⟨.error .notAuthenticated, m, []⟩
  | some tok =>
    let req := datasetsRequest tok workspace_id
    let response := env req
    if response.status_code == 200 then
      let data := response.body
      let datasets := jsonAsArr (jsonGetD data "value" (Json.arr []))
      ⟨.ok (dfOfRecords datasets ["id", "name"]), m, [.netCall req]⟩
    else
      ⟨.error (.apiError response.status_code response.text), m, [.netCall req]⟩

/-- The GET request `get_list_of_reports` and `get_reports_with_datasets`
issue against the reports collection. -/
def reportsRequest (tok workspace_id : String) : HttpRequest :=
  { method := "GET"
    url := "https://api.powerbi.com/v1.0/myorg/groups/" ++ workspace_id ++ "/reports"
    headers := [("Authorization", "Bearer " ++ tok)]
    jsonBody := none }

/-- `PBIManager.get_list_of_reports`. -/
def PBIManager.get_list_of_reports (m : PBIManager) (env : Http) (workspace_id : String) :
    MResult DataFrame :=
  match m.access_token with
  | none => ⟨.error .notAuthenticated, m, []⟩
  | some tok =>
    let req := reportsRequest tok workspace_id
    let response := env req
    if response.status_code == 200 then
      let reports := jsonAsArr (jsonGetD response.body "value" (Json.arr []))
      ⟨.ok (dfOfRecords reports ["id", "name"]), m, [.netCall req]⟩
    else
      ⟨.error (.apiError response.status_code response.text), m, [.netCall req]⟩

/-- The GET request for a single dataset's detail, issued by the
secondary lookup inside `get_reports_with_datasets`. -/
def datasetDetailRequest (tok workspace_id dataset_id : String) : HttpRequest :=
  { method := "GET"
    url := "https://api.powerbi.com/v1.0/myorg/groups/" ++ workspace_id ++
      "/datasets/" ++ dataset_id
    headers := [("Authorization", "Bearer " ++ tok)]
    jsonBody := none }

/-- Body of the per-report loop in `get_reports_with_datasets`: extracts
`id`, `name`, `datasetId`; when `datasetId` is truthy, issues the
secondary detail GET and takes `name` from a 200 response, leaving the
dataset name `None` on any other status. -/
def resolveReport (env : Http) (tok workspace_id : String) (report : Json) :
    Json × List Event :=
  let report_id := jsonGet report "id"
  let report_name := jsonGet report "name"
  let dataset_id := jsonGet report "datasetId"
  let lookup : Json × List Event :=
    if jsonTruthy dataset_id then
      let req := datasetDetailRequest tok workspace_id (jsonAsStr dataset_id)
      let dataset_response := env req
      if dataset_response.status_code == 200 then
        (jsonGet dataset_response.body "name", [.netCall req])
      else
        (Json.null, [.netCall req])
    else
      (Json.null, [])
  (Json.obj [("report_id", report_id), ("report_name", report_name),
             ("dataset_id", dataset_id), ("dataset_name", lookup.1)], lookup.2)

/-- `PBIManager.get_reports_with_datasets`. -/
def PBIManager.get_reports_with_datasets (m : PBIManager) (env : Http)
    (workspace_id : String) : MResult DataFrame :=
  match m.access_token with
  | none => ⟨.error .notAuthenticated, m, []⟩
  | some tok =>
    let req := reportsRequest tok workspace_id
    let response := env req
    if response.status_code == 200 then
      let reports := jsonAsArr (jsonGetD response.body "value" (Json.arr []))
      let resolved := reports.map (resolveReport env tok workspace_id)
      let report_list := resolved.map Prod.fst
      let secondary_events := (resolved.map Prod.snd).flatten
      ⟨.ok (dfOfRecords report_list
          ["report_id", "report_name", "dataset_id", "dataset_name"]), m,
        .netCall req :: secondary_events⟩
    else
      ⟨.error (.apiError response.status_code response.text), m, [.netCall req]⟩

/-- The query body `execute_query` POSTs:
`{"queries": [{"query": query_input}]}`. -/
def mkQueryBody (query_input : String) : Json :=
  Json.obj [("queries", Json.arr [Json.obj [("query", Json.str query_input)]])]

/-- The POST request `execute_query` issues. -/
def executeQueryRequest (tok query_input dataset_id : String) : HttpRequest :=
  { method := "POST"
    url := "https://api.powerbi.com/v1.0/myorg/datasets/" ++ dataset_id ++ "/executeQueries"
    headers := [("Content-Type", "application/json"),
                ("Authorization", "Bearer " ++ tok)]
    jsonBody := some (mkQueryBody query_input) }

/-- The access path `result_json['results'][0]['tables'][0]['rows']`
of `execute_query`, ending in a list of row records; `none` models the
`KeyError`/`IndexError`/`TypeError` the try-block catches (a non-list
`rows` is likewise treated as a shape failure: `pd.DataFrame` rejects
scalar input, and the engine contract makes `rows` a list). -/
def extractRows (j : Json) : Option (List Json) := do
  let results ← jsonKey j "results"
  let r0 ← jsonIdx results 0
  let tables ← jsonKey r0 "tables"
  let t0 ← jsonIdx tables 0
  let rows ← jsonKey t0 "rows"
  match rows with
  | .arr xs => some xs
  | _ => none

/-- `PBIManager.execute_query`. -/
def PBIManager.execute_query (m : PBIManager) (env : Http)
    (query_input dataset_id : String) : MResult DataFrame :=
  match m.access_token with
  | none => ⟨.error .notAuthenticated, m, []⟩
  | some tok =>
    let req := executeQueryRequest tok query_input dataset_id
    let response := env req
    if response.status_code == 200 then
      match extractRows response.body with
      | some data => ⟨.ok (dfOfRecords data (recordCols data)), m, [.netCall req]⟩
      | none => ⟨.error .queryResultShape, m, [.netCall req]⟩
    else
      ⟨.error (.apiError response.status_code response.text), m, [.netCall req]⟩

/-- The POST request `refresh_dataset` issues (no body). -/
def refreshRequest (tok workspace_id dataset_id : String) : HttpRequest :=
  { method := "POST"
    url := "https://api.powerbi.com/v1.0/myorg/groups/" ++ workspace_id ++
      "/datasets/" ++ dataset_id ++ "/refreshes"
    headers := [("Authorization", "Bearer " ++ tok),
                ("Content-Type", "application/json")]
    jsonBody := none }

/-- `PBIManager.refresh_dataset`: only status 202 is success. -/
def PBIManager.refresh_dataset (m : PBIManager) (env : Http)
    (workspace_id dataset_id : String) : MResult Unit :=
  match m.access_token with
  | none => ⟨.error .notAuthenticated, m, []⟩
  | some tok =>
    let req := refreshRequest tok workspace_id dataset_id
    let response := env req
    if response.status_code == 202 then
      ⟨.ok (), m, [.netCall req]⟩
    else
      ⟨.error (.apiError response.status_code response.text), m, [.netCall req]⟩

/-- The fixed sheet/query list of `get_documentation`. -/
def doc_var_list : List String := ["columns", "tables", "measures", "relations"]

/-- The introspection query text built for one sheet word (the exact
triple-quoted f-string of the source, 16-space indentation included). -/
def docQuery (word : String) : String :=
  "\n                EVALUATE\n                Info_" ++ word ++ "\n                "

/-- `os.path.join` for the cases arising here (the second component is
a plain file name, never absolute): an empty first component is
dropped, a trailing separator is not doubled. -/
def os_path_join (a b : String) : String :=
  if a = "" then b
  else if a.data.getLast? = some (Char.ofNat 47) then a ++ b
  else a ++ "/" ++ b

/-- The spreadsheet file the export produces: target path plus the
sheets written so far, in order. -/
structure ExcelFile where
  path : String
  sheets : List (String × DataFrame)
deriving Repr

/-- The `for word in doc_var_list` loop of `get_documentation`: runs the
introspection query for each word and writes the result as a sheet,
stopping at (and returning) the first error; yields the sheets written
before the failure and the trace of the whole loop. -/
def doc_loop (m : PBIManager) (env : Http) (dataset_id : String) :
    List String → Option PBIError × List (String × DataFrame) × List Event
  | [] => (none, [], [])
  | word :: rest =>
    let r := m.execute_query env (docQuery word) dataset_id
    match r.res with
    | .error e => (some e, [], r.events)
    | .ok df =>
      let (err, sheets, evs) := doc_loop m env dataset_id rest
      (err, (word, df) :: sheets, r.events ++ Event.sheetWrite word :: evs)

/-- `PBIManager.get_documentation`.  The `pd.ExcelWriter(…, mode='w',
engine='openpyxl')` context is modelled after pandas' behaviour: the
writer opens (creates or truncates) the target file when constructed,
accumulates sheets in memory, and its `__exit__` saves the workbook
unconditionally — also when an exception is propagating — so the file
at the target path ends up holding exactly the sheets written before a
failure, and no cleanup or rename happens.  Returns, besides the call
result, the file left at the target path. -/
def PBIManager.get_documentation (m : PBIManager) (env : Http)
    (dataset_id path_to_save : String) : MResult Unit × Option ExcelFile :=
  match m.access_token with
  | none => (⟨.error .notAuthenticated, m, []⟩, none)
  | some _ =>
    let file_name := "Documentation_" ++ dataset_id ++ ".xlsx"
    let file_path := os_path_join path_to_save file_name
    let (err, sheets, evs) := doc_loop m env dataset_id doc_var_list
    let events := Event.fileCreate file_path :: evs ++ [Event.fileSave file_path]
    match err with
    | none => (⟨.ok (), m, events⟩, some ⟨file_path, sheets⟩)
    | some e => (⟨.error e, m, events⟩, some ⟨file_path, sheets⟩)

/-! ## Concrete fixtures used by witnesses and counterexamples -/

/-- A manager holding the token "tk" (as left by a successful
`get_token`) with otherwise arbitrary concrete credentials. -/
def mTok : PBIManager :=
  { tenant_id := "t", client_id := "c", client_secret := "s", scope := ["sc"]
    access_token := some "tk"
    authority := "https://login.microsoftonline.com/t" }

/-- An environment answering every request with status 200 and a null
body. -/
def env200 : Http := fun _ => ⟨200, Json.null, ""⟩

/-- An environment answering every request with status 401. -/
def env401 : Http := fun _ => ⟨401, Json.null, "Unauthorized"⟩

/-! ## C1 -/

/-- C1: for every authenticated operation (ListDatasets, ListReports,
ListReportsWithDatasets, ExecuteQuery, ExportDocumentation,
RefreshDataset), an absent token makes the operation fail with
`NotAuthenticatedError` with an empty effect trace: no network call (and
no file operation) is attempted, so the token-presence check precedes
all other effects. -/
theorem C1_token_check_precedes_effects (m : PBIManager) (env : Http)
    (w q d dir : String) (h : m.access_token = none) :
    ((m.get_list_of_datasets env w).res = .error .notAuthenticated ∧
      (m.get_list_of_datasets env w).events = []) ∧
    ((m.get_list_of_reports env w).res = .error .notAuthenticated ∧
      (m.get_list_of_reports env w).events = []) ∧
    ((m.get_reports_with_datasets env w).res = .error .notAuthenticated ∧
      (m.get_reports_with_datasets env w).events = []) ∧
    ((m.execute_query env q d).res = .error .notAuthenticated ∧
      (m.execute_query env q d).events = []) ∧
    ((m.get_documentation env d dir).1.res = .error .notAuthenticated ∧
      (m.get_documentation env d dir).1.events = []) ∧
    ((m.refresh_dataset env w d).res = .error .notAuthenticated ∧
      (m.refresh_dataset env w d).events = []) := by
  simp [PBIManager.get_list_of_datasets, PBIManager.get_list_of_reports,
    PBIManager.get_reports_with_datasets, PBIManager.execute_query,
    PBIManager.get_documentation, PBIManager.refresh_dataset, h]

/-- Witness for C1: a freshly constructed client has no token, and each
operation then fails with `NotAuthenticatedError` without any effect. -/
theorem C1_token_check_precedes_effects_witness :
    (PBIManager.init "t" "c" "s" "sc").1.access_token = none ∧
    ((((PBIManager.init "t" "c" "s" "sc").1.get_list_of_datasets env200 "w").res
        = .error .notAuthenticated ∧
      (((PBIManager.init "t" "c" "s" "sc").1.get_list_of_datasets env200 "w").events = [])) ∧
    ((((PBIManager.init "t" "c" "s" "sc").1.get_list_of_reports env200 "w").res
        = .error .notAuthenticated) ∧
      (((PBIManager.init "t" "c" "s" "sc").1.get_list_of_reports env200 "w").events = [])) ∧
    ((((PBIManager.init "t" "c" "s" "sc").1.get_reports_with_datasets env200 "w").res
        = .error .notAuthenticated) ∧
      (((PBIManager.init "t" "c" "s" "sc").1.get_reports_with_datasets env200 "w").events = [])) ∧
    ((((PBIManager.init "t" "c" "s" "sc").1.execute_query env200 "q" "d").res
        = .error .notAuthenticated) ∧
      (((PBIManager.init "t" "c" "s" "sc").1.execute_query env200 "q" "d").events = [])) ∧
    ((((PBIManager.init "t" "c" "s" "sc").1.get_documentation env200 "d" "p").1.res
        = .error .notAuthenticated) ∧
      (((PBIManager.init "t" "c" "s" "sc").1.get_documentation env200 "d" "p").1.events = [])) ∧
    ((((PBIManager.init "t" "c" "s" "sc").1.refresh_dataset env200 "w" "d").res
        = .error .notAuthenticated) ∧
      (((PBIManager.init "t" "c" "s" "sc").1.refresh_dataset env200 "w" "d").events = []))) :=
  ⟨rfl, C1_token_check_precedes_effects _ env200 "w" "q" "d" "p" rfl⟩

/-! ## C6 -/

/-- C6: with a token present, RefreshDataset succeeds exactly when the
refresh endpoint answers HTTP 202; any other status (200 included)
yields `ApiError` carrying that status and body. -/
theorem C6_refresh_only_202_succeeds (m : PBIManager) (env : Http)
    (w d tok : String) (htok : m.access_token = some tok) :
    ((env (refreshRequest tok w d)).status_code = 202 →
      (m.refresh_dataset env w d).res = .ok ()) ∧
    ((env (refreshRequest tok w d)).status_code ≠ 202 →
      (m.refresh_dataset env w d).res =
        .error (.apiError (env (refreshRequest tok w d)).status_code
          (env (refreshRequest tok w d)).text)) := by
  constructor <;> intro h <;> simp [PBIManager.refresh_dataset, htok, h]

/-- Witness for C6: with token "tk" and an environment answering 200
(a non-202 status), the refresh fails with `ApiError 200`. -/
theorem C6_refresh_only_202_succeeds_witness :
    mTok.access_token = some "tk" ∧
    (env200 (refreshRequest "tk" "w" "d")).status_code = 200 ∧
    (mTok.refresh_dataset env200 "w" "d").res = .error (.apiError 200 "") :=
  ⟨rfl, rfl,
    (C6_refresh_only_202_succeeds mTok env200 "w" "d" "tk" rfl).2 (by decide)⟩

/-! ## C7 -/

/-- C7: the constructor stores the credentials verbatim (the scope as
the singleton list wrapping it), performs no effect (empty trace — its
body is only attribute assignments, with no validation and no network
call), and initializes the token field to absent. -/
theorem C7_construct_stores_verbatim_no_effects (t c s sc : String) :
    (PBIManager.init t c s sc).1.tenant_id = t ∧
    (PBIManager.init t c s sc).1.client_id = c ∧
    (PBIManager.init t c s sc).1.client_secret = s ∧
    (PBIManager.init t c s sc).1.scope = [sc] ∧
    (PBIManager.init t c s sc).1.access_token = none ∧
    (PBIManager.init t c s sc).1.authority
      = "https://login.microsoftonline.com/" ++ t ∧
    (PBIManager.init t c s sc).2 = [] :=
  ⟨rfl, rfl, rfl, rfl, rfl, rfl, rfl⟩

/-! ## C8 -/

/-- C8: no operation mutates the credential fields (tenant id, client
id, client secret, scope, authority), and the token field is written
only by `get_token`: every other operation returns the object state it
received, unchanged. -/
theorem C8_only_get_token_writes_state (m : PBIManager) (env : Http)
    (resp : Json) (w q d dir : String) :
    ((m.get_token resp).2.tenant_id = m.tenant_id ∧
     (m.get_token resp).2.client_id = m.client_id ∧
     (m.get_token resp).2.client_secret = m.client_secret ∧
     (m.get_token resp).2.scope = m.scope ∧
     (m.get_token resp).2.authority = m.authority) ∧
    (m.get_list_of_datasets env w).state = m ∧
    (m.get_list_of_reports env w).state = m ∧
    (m.get_reports_with_datasets env w).state = m ∧
    (m.execute_query env q d).state = m ∧
    (m.get_documentation env d dir).1.state = m ∧
    (m.refresh_dataset env w d).state = m := by
  refine ⟨?_, ?_, ?_, ?_, ?_, ?_, ?_⟩
  · simp only [PBIManager.get_token]
    split <;> simp
  · cases h : m.access_token <;> simp only [PBIManager.get_list_of_datasets, h] <;>
      first | rfl | (split <;> rfl)
  · cases h : m.access_token <;> simp only [PBIManager.get_list_of_reports, h] <;>
      first | rfl | (split <;> rfl)
  · cases h : m.access_token <;> simp only [PBIManager.get_reports_with_datasets, h] <;>
      first | rfl | (split <;> rfl)
  · cases h : m.access_token <;> simp only [PBIManager.execute_query, h] <;>
      first | rfl | (split <;> first | rfl | (split <;> rfl))
  · cases h : m.access_token with
    | none => simp [PBIManager.get_documentation, h]
    | some tok =>
      simp only [PBIManager.get_documentation, h]
      rcases hd : doc_loop m env d doc_var_list with ⟨err, sheets, evs⟩
      cases err <;> rfl
  · cases h : m.access_token <;> simp only [PBIManager.refresh_dataset, h] <;>
      first | rfl | (split <;> rfl)

/-! ## C2 -/

/-- C2: with a token present, ExecuteQuery on an HTTP 200 response whose
payload carries rows at `results[0].tables[0].rows` returns exactly the
DataFrame built from those rows; when that path is absent or malformed
it fails with the query-shape error; on a non-200 status it fails with
`ApiError` carrying status and body; and the query-shape error is
distinct from every `ApiError`. -/
theorem C2_execute_query_result_contract (m : PBIManager) (env : Http)
    (q d tok : String) (htok : m.access_token = some tok) :
    (∀ rows, (env (executeQueryRequest tok q d)).status_code = 200 →
      extractRows (env (executeQueryRequest tok q d)).body = some rows →
      (m.execute_query env q d).res = .ok (dfOfRecords rows (recordCols rows))) ∧
    ((env (executeQueryRequest tok q d)).status_code = 200 →
      extractRows (env (executeQueryRequest tok q d)).body = none →
      (m.execute_query env q d).res = .error .queryResultShape) ∧
    ((env (executeQueryRequest tok q d)).status_code ≠ 200 →
      (m.execute_query env q d).res =
        .error (.apiError (env (executeQueryRequest tok q d)).status_code
          (env (executeQueryRequest tok q d)).text)) ∧
    (∀ s b, (PBIError.queryResultShape : PBIError) ≠ .apiError s b) := by
  refine ⟨?_, ?_, ?_, fun s b h => PBIError.noConfusion h⟩
  · intro rows h200 hrows
    simp [PBIManager.execute_query, htok, h200, hrows]
  · intro h200 hrows
    simp [PBIManager.execute_query, htok, h200, hrows]
  · intro hne
    simp [PBIManager.execute_query, htok, hne]

/-- The query-result payload of the specification example:
`results[0].tables[0].rows = [ \x7b"a": 1\x7d ]`. -/
def qrBody : Json :=
  Json.obj [("results", Json.arr [Json.obj [("tables", Json.arr
    [Json.obj [("rows", Json.arr [Json.obj [("a", Json.num 1)]])]])]])]

/-- An environment answering every request with 200 and `qrBody`. -/
def envQR : Http := fun _ => ⟨200, qrBody, ""⟩

/-- An environment answering 200 with a payload whose first result is
missing the `tables` key. -/
def envQRBad : Http := fun _ =>
  ⟨200, Json.obj [("results", Json.arr [Json.obj [("x", Json.null)]])], ""⟩

/-- Witness for C2: on the example payload the query returns exactly one
row with column `a` holding 1; on the payload missing `tables` it fails
with the query-shape error. -/
theorem C2_execute_query_result_contract_witness :
    mTok.access_token = some "tk" ∧
    (envQR (executeQueryRequest "tk" "q" "d")).status_code = 200 ∧
    extractRows (envQR (executeQueryRequest "tk" "q" "d")).body
      = some [Json.obj [("a", Json.num 1)]] ∧
    (mTok.execute_query envQR "q" "d").res
      = .ok ⟨["a"], [[some (Json.num 1)]]⟩ ∧
    extractRows (envQRBad (executeQueryRequest "tk" "q" "d")).body = none ∧
    (mTok.execute_query envQRBad "q" "d").res = .error .queryResultShape :=
  ⟨rfl, rfl, rfl,
    (C2_execute_query_result_contract mTok envQR "q" "d" "tk" rfl).1
      [Json.obj [("a", Json.num 1)]] rfl rfl,
    rfl,
    (C2_execute_query_result_contract mTok envQRBad "q" "d" "tk" rfl).2.1 rfl rfl⟩

/-! ## C4 -/

/-- C4: with a token present, ListDatasets on an HTTP 200 response whose
body maps "value" to a collection returns one record per element,
mapping the id and name fields of each element into the record (a
missing field becomes an absent cell, not a failure); on any non-200
status it fails with `ApiError` carrying the status and body. -/
theorem C4_list_datasets_contract (m : PBIManager) (env : Http)
    (w tok : String) (vs : List Json) (htok : m.access_token = some tok) :
    ((env (datasetsRequest tok w)).status_code = 200 →
      jsonKey (env (datasetsRequest tok w)).body "value" = some (Json.arr vs) →
      (m.get_list_of_datasets env w).res =
        .ok ⟨["id", "name"],
             vs.map (fun r => [jsonKey r "id", jsonKey r "name"])⟩) ∧
    ((env (datasetsRequest tok w)).status_code ≠ 200 →
      (m.get_list_of_datasets env w).res =
        .error (.apiError (env (datasetsRequest tok w)).status_code
          (env (datasetsRequest tok w)).text)) := by
  constructor
  · intro h200 hval
    simp [PBIManager.get_list_of_datasets, htok, h200, jsonGetD, hval,
      jsonAsArr, dfOfRecords]
  · intro hne
    simp [PBIManager.get_list_of_datasets, htok, hne]

/-- The datasets response of the specification example:
`value = [ \x7b"id": "d1", "name": "Sales"\x7d ]`. -/
def envDS : Http := fun _ =>
  ⟨200, Json.obj [("value", Json.arr
    [Json.obj [("id", Json.str "d1"), ("name", Json.str "Sales")]])], ""⟩

/-- Witness for C4: the example listing yields exactly one record
`(d1, Sales)`, and a 401 answer yields `ApiError 401`. -/
theorem C4_list_datasets_contract_witness :
    mTok.access_token = some "tk" ∧
    (envDS (datasetsRequest "tk" "w")).status_code = 200 ∧
    (mTok.get_list_of_datasets envDS "w").res
      = .ok ⟨["id", "name"], [[some (Json.str "d1"), some (Json.str "Sales")]]⟩ ∧
    (mTok.get_list_of_datasets env401 "w").res
      = .error (.apiError 401 "Unauthorized") :=
  ⟨rfl, rfl,
    (C4_list_datasets_contract mTok envDS "w" "tk"
      [Json.obj [("id", Json.str "d1"), ("name", Json.str "Sales")]] rfl).1 rfl rfl,
    (C4_list_datasets_contract mTok env401 "w" "tk" [] rfl).2 (by decide)⟩

/-! ## C3 -/

/-- C3: with a token present, ListReportsWithDatasets raises `ApiError`
exactly when the primary reports call returns a non-200 status; on a
200 primary response it returns (never raises) one record per report,
and per report the secondary dataset-detail lookup degrades silently: a
non-200 detail status leaves `dataset_name` absent (null) in that
record, while a 200 detail status fills in the resolved name. -/
theorem C3_secondary_lookup_degrades (m : PBIManager) (env : Http)
    (w tok : String) (report : Json) (htok : m.access_token = some tok) :
    ((env (reportsRequest tok w)).status_code = 200 →
      (m.get_reports_with_datasets env w).res =
        .ok (dfOfRecords
          ((jsonAsArr (jsonGetD (env (reportsRequest tok w)).body "value"
              (Json.arr []))).map (fun r => (resolveReport env tok w r).1))
          ["report_id", "report_name", "dataset_id", "dataset_name"])) ∧
    ((env (reportsRequest tok w)).status_code ≠ 200 →
      (m.get_reports_with_datasets env w).res =
        .error (.apiError (env (reportsRequest tok w)).status_code
          (env (reportsRequest tok w)).text)) ∧
    (jsonTruthy (jsonGet report "datasetId") = true →
      (env (datasetDetailRequest tok w
        (jsonAsStr (jsonGet report "datasetId")))).status_code ≠ 200 →
      (resolveReport env tok w report).1 =
        Json.obj [("report_id", jsonGet report "id"),
                  ("report_name", jsonGet report "name"),
                  ("dataset_id", jsonGet report "datasetId"),
                  ("dataset_name", Json.null)]) ∧
    (jsonTruthy (jsonGet report "datasetId") = true →
      (env (datasetDetailRequest tok w
        (jsonAsStr (jsonGet report "datasetId")))).status_code = 200 →
      (resolveReport env tok w report).1 =
        Json.obj [("report_id", jsonGet report "id"),
                  ("report_name", jsonGet report "name"),
                  ("dataset_id", jsonGet report "datasetId"),
                  ("dataset_name",
                    jsonGet (env (datasetDetailRequest tok w
                      (jsonAsStr (jsonGet report "datasetId")))).body "name")]) := by
  refine ⟨?_, ?_, ?_, ?_⟩
  · intro h200
    simp [PBIManager.get_reports_with_datasets, htok, h200, Function.comp_def]
  · intro hne
    simp [PBIManager.get_reports_with_datasets, htok, hne]
  · intro htruthy hne
    simp [resolveReport, htruthy, hne]
  · intro htruthy h200
    simp [resolveReport, htruthy, h200]

/-- A concrete report carrying dataset id "d1". -/
def reportJson : Json :=
  Json.obj [("id", Json.str "r1"), ("name", Json.str "Rep"),
            ("datasetId", Json.str "d1")]

/-- Environment for the C3 example: the reports listing returns one
report bound to dataset "d1", and the detail endpoint for "d1" resolves
the name "Sales". -/
def envC3 : Http := fun req =>
  if req.url = (reportsRequest "tk" "w").url then
    ⟨200, Json.obj [("value", Json.arr [reportJson])], ""⟩
  else if req.url = (datasetDetailRequest "tk" "w" "d1").url then
    ⟨200, Json.obj [("name", Json.str "Sales")], ""⟩
  else
    ⟨404, Json.null, "not found"⟩

/-- Environment for the degraded C3 example: the reports listing
succeeds but every detail lookup answers 500. -/
def envC3bad : Http := fun req =>
  if req.url = (reportsRequest "tk" "w").url then
    ⟨200, Json.obj [("value", Json.arr [reportJson])], ""⟩
  else
    ⟨500, Json.null, "boom"⟩

/-- Witness for C3: with a successful detail lookup the single record
carries `dataset_name = "Sales"`; with a failing detail lookup the same
call still returns (no error) and the record carries a null
`dataset_name`. -/
theorem C3_secondary_lookup_degrades_witness :
    mTok.access_token = some "tk" ∧
    jsonTruthy (jsonGet reportJson "datasetId") = true ∧
    (envC3 (reportsRequest "tk" "w")).status_code = 200 ∧
    (mTok.get_reports_with_datasets envC3 "w").res =
      .ok ⟨["report_id", "report_name", "dataset_id", "dataset_name"],
           [[some (Json.str "r1"), some (Json.str "Rep"),
             some (Json.str "d1"), some (Json.str "Sales")]]⟩ ∧
    (envC3bad (datasetDetailRequest "tk" "w" "d1")).status_code = 500 ∧
    (mTok.get_reports_with_datasets envC3bad "w").res =
      .ok ⟨["report_id", "report_name", "dataset_id", "dataset_name"],
           [[some (Json.str "r1"), some (Json.str "Rep"),
             some (Json.str "d1"), some Json.null]]⟩ ∧
    (resolveReport envC3bad "tk" "w" reportJson).1 =
      Json.obj [("report_id", Json.str "r1"), ("report_name", Json.str "Rep"),
                ("dataset_id", Json.str "d1"), ("dataset_name", Json.null)] :=
  ⟨rfl, rfl, rfl,
    (C3_secondary_lookup_degrades mTok envC3 "w" "tk" reportJson rfl).1 rfl,
    rfl,
    (C3_secondary_lookup_degrades mTok envC3bad "w" "tk" reportJson rfl).1 rfl,
    (C3_secondary_lookup_degrades mTok envC3bad "w" "tk" reportJson rfl).2.2.1
      rfl (by decide)⟩

/-! ## Helper lemmas for the documentation export -/

/-- With a token present, `execute_query` performs exactly one network
call, the query POST — in every outcome branch. -/
theorem execute_query_events (m : PBIManager) (env : Http) (tok d : String)
    (htok : m.access_token = some tok) (q : String) :
    (m.execute_query env q d).events = [.netCall (executeQueryRequest tok q d)] := by
  simp only [PBIManager.execute_query, htok]
  split
  · split <;> rfl
  · rfl

/-- `doc_loop` on a list of words whose queries all succeed: no error,
one sheet per word in order, and per word the query events followed by
the sheet write. -/
theorem doc_loop_all_ok (m : PBIManager) (env : Http) (d : String)
    (f : String → DataFrame) :
    ∀ words : List String,
      (∀ w ∈ words, (m.execute_query env (docQuery w) d).res = .ok (f w)) →
      doc_loop m env d words =
        (none, words.map (fun w => (w, f w)),
         (words.map (fun w => (m.execute_query env (docQuery w) d).events
            ++ [Event.sheetWrite w])).flatten) := by
  intro words
  induction words with
  | nil => intro _; rfl
  | cons w rest ih =>
    intro h
    have hw := h w (List.mem_cons_self w rest)
    have hrest := ih (fun x hx => h x (List.mem_cons_of_mem w hx))
    simp only [doc_loop, hw, hrest]
    simp

/-- `doc_loop` on a split `done ++ w :: rest` where every query of
`done` succeeds and the query of `w` fails with `e`: the loop stops at
`w` with error `e`, having written exactly the sheets of `done`. -/
theorem doc_loop_split (m : PBIManager) (env : Http) (d : String)
    (f : String → DataFrame) (e : PBIError) (w : String) :
    ∀ (done rest : List String),
      (∀ x ∈ done, (m.execute_query env (docQuery x) d).res = .ok (f x)) →
      (m.execute_query env (docQuery w) d).res = .error e →
      doc_loop m env d (done ++ w :: rest) =
        (some e, done.map (fun x => (x, f x)),
         (done.map (fun x => (m.execute_query env (docQuery x) d).events
            ++ [Event.sheetWrite x])).flatten
           ++ (m.execute_query env (docQuery w) d).events) := by
  intro done
  induction done with
  | nil =>
    intro rest _ herr
    simp only [List.nil_append, doc_loop, herr]
    simp
  | cons x xs ih =>
    intro rest hdone herr
    have hx := hdone x (List.mem_cons_self x xs)
    have hxs := ih rest (fun y hy => hdone y (List.mem_cons_of_mem x hy)) herr
    simp only [List.cons_append, doc_loop, hx]
    simp [hxs]

/-! ## C5 -/

/-- C5: with a token present, when the four fixed introspection queries
(via ExecuteQuery) all succeed, ExportDocumentation returns without
error and the file at `path_to_save` joined with
`Documentation_{dataset_id}.xlsx` holds the four sheets named columns,
tables, measures, relations in that fixed order, the network traffic
being exactly the four query POSTs in order; and if one of the four
queries fails, ExportDocumentation fails with exactly the error of that
ExecuteQuery call. -/
theorem C5_documentation_four_sheets (m : PBIManager) (env : Http)
    (d dir tok : String) (f : String → DataFrame)
    (htok : m.access_token = some tok) :
    ((∀ w ∈ doc_var_list, (m.execute_query env (docQuery w) d).res = .ok (f w)) →
      (m.get_documentation env d dir).1.res = .ok () ∧
      (m.get_documentation env d dir).2 =
        some ⟨os_path_join dir ("Documentation_" ++ d ++ ".xlsx"),
              [("columns", f "columns"), ("tables", f "tables"),
               ("measures", f "measures"), ("relations", f "relations")]⟩ ∧
      netCalls (m.get_documentation env d dir).1.events =
        [executeQueryRequest tok (docQuery "columns") d,
         executeQueryRequest tok (docQuery "tables") d,
         executeQueryRequest tok (docQuery "measures") d,
         executeQueryRequest tok (docQuery "relations") d]) ∧
    (∀ done w rest e, doc_var_list = done ++ w :: rest →
      (∀ x ∈ done, (m.execute_query env (docQuery x) d).res = .ok (f x)) →
      (m.execute_query env (docQuery w) d).res = .error e →
      (m.get_documentation env d dir).1.res = .error e) := by
  constructor
  · intro hsucc
    have hl := doc_loop_all_ok m env d f doc_var_list hsucc
    simp only [PBIManager.get_documentation, htok, hl]
    simp [doc_var_list, netCalls, execute_query_events m env tok d htok]
  · intro done w rest e hsplit hdone herr
    have hl := doc_loop_split m env d f e w done rest hdone herr
    simp only [PBIManager.get_documentation, htok, hsplit, hl]

/-- The DataFrame the example query payload `qrBody` flattens to: one
row with column a holding 1. -/
def dfA1 : DataFrame := ⟨["a"], [[some (Json.num 1)]]⟩

/-- Witness for C5: against an environment answering every query with
the example payload, the export succeeds, the file holds the four
sheets columns, tables, measures, relations in order, and exactly the
four introspection query POSTs are issued. -/
theorem C5_documentation_four_sheets_witness :
    mTok.access_token = some "tk" ∧
    (mTok.execute_query envQR (docQuery "columns") "d").res = .ok dfA1 ∧
    (mTok.get_documentation envQR "d" "out").1.res = .ok () ∧
    os_path_join "out" ("Documentation_" ++ "d" ++ ".xlsx")
      = "out/Documentation_d.xlsx" ∧
    (mTok.get_documentation envQR "d" "out").2 =
      some ⟨os_path_join "out" ("Documentation_" ++ "d" ++ ".xlsx"),
            [("columns", dfA1), ("tables", dfA1),
             ("measures", dfA1), ("relations", dfA1)]⟩ ∧
    netCalls (mTok.get_documentation envQR "d" "out").1.events =
      [executeQueryRequest "tk" (docQuery "columns") "d",
       executeQueryRequest "tk" (docQuery "tables") "d",
       executeQueryRequest "tk" (docQuery "measures") "d",
       executeQueryRequest "tk" (docQuery "relations") "d"] :=
  ⟨rfl, rfl,
   ((C5_documentation_four_sheets mTok envQR "d" "out" "tk" (fun _ => dfA1) rfl).1
      (fun _ _ => rfl)).1,
   by decide,
   ((C5_documentation_four_sheets mTok envQR "d" "out" "tk" (fun _ => dfA1) rfl).1
      (fun _ _ => rfl)).2.1,
   ((C5_documentation_four_sheets mTok envQR "d" "out" "tk" (fun _ => dfA1) rfl).1
      (fun _ _ => rfl)).2.2⟩

/-! ## C10 -/

/-- C10: with a token present, ExportDocumentation opens (creates or
truncates) the output file at the target path as its first effect,
before any network call; and when the query of one word fails after
those of the preceding words succeeded, the call fails while the file
at that same path remains, holding exactly the sheets completed before
the failure — the workbook is still written out at exit (last effect
saves the file) and nothing deletes or renames it. -/
theorem C10_partial_file_on_failure (m : PBIManager) (env : Http)
    (d dir tok : String) (f : String → DataFrame)
    (htok : m.access_token = some tok) :
    ((m.get_documentation env d dir).1.events.head? =
      some (.fileCreate (os_path_join dir ("Documentation_" ++ d ++ ".xlsx")))) ∧
    (∀ done w rest e, doc_var_list = done ++ w :: rest →
      (∀ x ∈ done, (m.execute_query env (docQuery x) d).res = .ok (f x)) →
      (m.execute_query env (docQuery w) d).res = .error e →
      (m.get_documentation env d dir).1.res = .error e ∧
      (m.get_documentation env d dir).2 =
        some ⟨os_path_join dir ("Documentation_" ++ d ++ ".xlsx"),
              done.map (fun x => (x, f x))⟩ ∧
      (m.get_documentation env d dir).1.events.getLast? =
        some (.fileSave (os_path_join dir ("Documentation_" ++ d ++ ".xlsx")))) := by
  constructor
  · simp only [PBIManager.get_documentation, htok]
    rcases hd : doc_loop m env d doc_var_list with ⟨err, sheets, evs⟩
    cases err <;> rfl
  · intro done w rest e hsplit hdone herr
    have hl := doc_loop_split m env d f e w done rest hdone herr
    simp only [PBIManager.get_documentation, htok, hsplit, hl]
    refine ⟨trivial, trivial, ?_⟩
    rw [← List.cons_append, List.getLast?_concat]

/-- Environment for the C10 example: every query answers with the good
example payload except the one whose query text targets the measures
introspection, which answers 500. -/
def envC10 : Http := fun req =>
  match req.jsonBody with
  | some (Json.obj [("queries", Json.arr [Json.obj [("query", Json.str q)]])]) =>
    if q = docQuery "measures" then ⟨500, Json.null, "boom"⟩
    else ⟨200, qrBody, ""⟩
  | _ => ⟨200, qrBody, ""⟩

/-- Witness for C10: with the third of the four queries failing, the
export fails with that ApiError, the file at the output path holds
exactly the columns and tables sheets, its creation is the first effect
and its save the last. -/
theorem C10_partial_file_on_failure_witness :
    mTok.access_token = some "tk" ∧
    doc_var_list = ["columns", "tables"] ++ "measures" :: ["relations"] ∧
    (mTok.execute_query envC10 (docQuery "measures") "d").res
      = .error (.apiError 500 "boom") ∧
    os_path_join "out" ("Documentation_" ++ "d" ++ ".xlsx")
      = "out/Documentation_d.xlsx" ∧
    (mTok.get_documentation envC10 "d" "out").1.events.head? =
      some (.fileCreate (os_path_join "out" ("Documentation_" ++ "d" ++ ".xlsx"))) ∧
    (mTok.get_documentation envC10 "d" "out").1.res = .error (.apiError 500 "boom") ∧
    (mTok.get_documentation envC10 "d" "out").2 =
      some ⟨os_path_join "out" ("Documentation_" ++ "d" ++ ".xlsx"),
            [("columns", dfA1), ("tables", dfA1)]⟩ ∧
    (mTok.get_documentation envC10 "d" "out").1.events.getLast? =
      some (.fileSave (os_path_join "out" ("Documentation_" ++ "d" ++ ".xlsx"))) :=
  ⟨rfl, rfl, rfl, by decide,
   (C10_partial_file_on_failure mTok envC10 "d" "out" "tk" (fun _ => dfA1) rfl).1,
   ((C10_partial_file_on_failure mTok envC10 "d" "out" "tk" (fun _ => dfA1) rfl).2
      ["columns", "tables"] "measures" ["relations"] (.apiError 500 "boom") rfl
      (List.forall_mem_cons.mpr ⟨rfl, List.forall_mem_cons.mpr ⟨rfl,
        fun x hx => absurd hx (List.not_mem_nil x)⟩⟩) rfl).1,
   ((C10_partial_file_on_failure mTok envC10 "d" "out" "tk" (fun _ => dfA1) rfl).2
      ["columns", "tables"] "measures" ["relations"] (.apiError 500 "boom") rfl
      (List.forall_mem_cons.mpr ⟨rfl, List.forall_mem_cons.mpr ⟨rfl,
        fun x hx => absurd hx (List.not_mem_nil x)⟩⟩) rfl).2.1,
   ((C10_partial_file_on_failure mTok envC10 "d" "out" "tk" (fun _ => dfA1) rfl).2
      ["columns", "tables"] "measures" ["relations"] (.apiError 500 "boom") rfl
      (List.forall_mem_cons.mpr ⟨rfl, List.forall_mem_cons.mpr ⟨rfl,
        fun x hx => absurd hx (List.not_mem_nil x)⟩⟩) rfl).2.2⟩

/-! ## Helper lemmas for C9: with a token value present (even the empty
string), no operation raises the not-authenticated error, since the
source only checks `is None`. -/

theorem datasets_res_ne_notAuth (m : PBIManager) (env : Http) (w tok : String)
    (htok : m.access_token = some tok) :
    (m.get_list_of_datasets env w).res ≠ .error .notAuthenticated := by
  simp only [PBIManager.get_list_of_datasets, htok]
  split <;> simp

theorem reports_res_ne_notAuth (m : PBIManager) (env : Http) (w tok : String)
    (htok : m.access_token = some tok) :
    (m.get_list_of_reports env w).res ≠ .error .notAuthenticated := by
  simp only [PBIManager.get_list_of_reports, htok]
  split <;> simp

theorem reports_ds_res_ne_notAuth (m : PBIManager) (env : Http) (w tok : String)
    (htok : m.access_token = some tok) :
    (m.get_reports_with_datasets env w).res ≠ .error .notAuthenticated := by
  simp only [PBIManager.get_reports_with_datasets, htok]
  split <;> simp

theorem exec_res_ne_notAuth (m : PBIManager) (env : Http) (q d tok : String)
    (htok : m.access_token = some tok) :
    (m.execute_query env q d).res ≠ .error .notAuthenticated := by
  simp only [PBIManager.execute_query, htok]
  split
  · split <;> simp
  · simp

theorem refresh_res_ne_notAuth (m : PBIManager) (env : Http) (w d tok : String)
    (htok : m.access_token = some tok) :
    (m.refresh_dataset env w d).res ≠ .error .notAuthenticated := by
  simp only [PBIManager.refresh_dataset, htok]
  split <;> simp

theorem doc_loop_ne_notAuth (m : PBIManager) (env : Http) (d tok : String)
    (htok : m.access_token = some tok) :
    ∀ words : List String,
      (doc_loop m env d words).1 ≠ some PBIError.notAuthenticated := by
  intro words
  induction words with
  | nil => simp [doc_loop]
  | cons w rest ih =>
    simp only [doc_loop]
    rcases hr : (m.execute_query env (docQuery w) d).res with e | df
    · intro hc
      exact exec_res_ne_notAuth m env (docQuery w) d tok htok
        (by rw [hr]; exact congrArg Except.error (Option.some.inj hc))
    · rcases hd : doc_loop m env d rest with ⟨err, sheets, evs⟩
      rw [hd] at ih
      exact ih

theorem doc_res_ne_notAuth (m : PBIManager) (env : Http) (d dir tok : String)
    (htok : m.access_token = some tok) :
    (m.get_documentation env d dir).1.res ≠ .error .notAuthenticated := by
  simp only [PBIManager.get_documentation, htok]
  have h1 := doc_loop_ne_notAuth m env d tok htok doc_var_list
  rcases hd : doc_loop m env d doc_var_list with ⟨err, sheets, evs⟩
  rw [hd] at h1
  cases err with
  | none => simp
  | some e =>
    intro hc
    exact h1 (congrArg some (Except.error.inj hc))

/-! ## C9 -/

/-- C9 (amended): when `get_token` fails, the token field has already
been overwritten with the value extracted from the response.  When the
response carries no access-token entry the field becomes absent and
every subsequent authenticated operation fails with the
not-authenticated error; but when the response maps the access token to
the empty string, `get_token` still fails while the field holds the
empty string — not the absent value — and subsequent authenticated
operations do not raise the not-authenticated error. -/
theorem C9_failed_get_token_overwrites (m : PBIManager) (resp : Json)
    (env : Http) (w q d dir : String) :
    (jsonKey resp "access_token" = none →
      (m.get_token resp).1 = .error .tokenError ∧
      (m.get_token resp).2.access_token = none ∧
      ((m.get_token resp).2.get_list_of_datasets env w).res
        = .error .notAuthenticated ∧
      ((m.get_token resp).2.get_list_of_reports env w).res
        = .error .notAuthenticated ∧
      ((m.get_token resp).2.get_reports_with_datasets env w).res
        = .error .notAuthenticated ∧
      ((m.get_token resp).2.execute_query env q d).res
        = .error .notAuthenticated ∧
      ((m.get_token resp).2.get_documentation env d dir).1.res
        = .error .notAuthenticated ∧
      ((m.get_token resp).2.refresh_dataset env w d).res
        = .error .notAuthenticated) ∧
    (jsonKey resp "access_token" = some (Json.str "") →
      (m.get_token resp).1 = .error .tokenError ∧
      (m.get_token resp).2.access_token = some "" ∧
      ((m.get_token resp).2.get_list_of_datasets env w).res
        ≠ .error .notAuthenticated ∧
      ((m.get_token resp).2.get_list_of_reports env w).res
        ≠ .error .notAuthenticated ∧
      ((m.get_token resp).2.get_reports_with_datasets env w).res
        ≠ .error .notAuthenticated ∧
      ((m.get_token resp).2.execute_query env q d).res
        ≠ .error .notAuthenticated ∧
      ((m.get_token resp).2.get_documentation env d dir).1.res
        ≠ .error .notAuthenticated ∧
      ((m.get_token resp).2.refresh_dataset env w d).res
        ≠ .error .notAuthenticated) := by
  constructor
  · intro h
    have hst : (m.get_token resp).2.access_token = none := by
      simp only [PBIManager.get_token, h]
      split <;> rfl
    refine ⟨?_, hst, ?_, ?_, ?_, ?_, ?_, ?_⟩
    · simp [PBIManager.get_token, h, tokenFalsy]
    all_goals
      simp [PBIManager.get_list_of_datasets, PBIManager.get_list_of_reports,
        PBIManager.get_reports_with_datasets, PBIManager.execute_query,
        PBIManager.get_documentation, PBIManager.refresh_dataset, hst]
  · intro h
    have hst : (m.get_token resp).2.access_token = some "" := by
      simp only [PBIManager.get_token, h]
      split <;> rfl
    exact ⟨by simp only [PBIManager.get_token, h]; rfl, hst,
      datasets_res_ne_notAuth _ env w "" hst,
      reports_res_ne_notAuth _ env w "" hst,
      reports_ds_res_ne_notAuth _ env w "" hst,
      exec_res_ne_notAuth _ env q d "" hst,
      doc_res_ne_notAuth _ env d dir "" hst,
      refresh_res_ne_notAuth _ env w d "" hst⟩

/-- Witness for C9 (amended): applied once to a response with no
access-token entry (field cleared, next operation not authenticated)
and once to a response carrying the empty string (field set to the
empty string, next operation reaches the network instead). -/
theorem C9_failed_get_token_overwrites_witness :
    jsonKey (Json.obj []) "access_token" = none ∧
    (mTok.get_token (Json.obj [])).1 = .error .tokenError ∧
    (mTok.get_token (Json.obj [])).2.access_token = none ∧
    ((mTok.get_token (Json.obj [])).2.get_list_of_datasets env401 "w").res
      = .error .notAuthenticated ∧
    jsonKey (Json.obj [("access_token", Json.str "")]) "access_token"
      = some (Json.str "") ∧
    (mTok.get_token (Json.obj [("access_token", Json.str "")])).1
      = .error .tokenError ∧
    (mTok.get_token (Json.obj [("access_token", Json.str "")])).2.access_token
      = some "" ∧
    ((mTok.get_token (Json.obj [("access_token", Json.str "")])).2.get_list_of_datasets
        env401 "w").res ≠ .error .notAuthenticated :=
  ⟨rfl,
   ((C9_failed_get_token_overwrites mTok (Json.obj []) env401 "w" "q" "d" "dir").1 rfl).1,
   ((C9_failed_get_token_overwrites mTok (Json.obj []) env401 "w" "q" "d" "dir").1 rfl).2.1,
   ((C9_failed_get_token_overwrites mTok (Json.obj []) env401 "w" "q" "d" "dir").1 rfl).2.2.1,
   rfl,
   ((C9_failed_get_token_overwrites mTok (Json.obj [("access_token", Json.str "")])
      env401 "w" "q" "d" "dir").2 rfl).1,
   ((C9_failed_get_token_overwrites mTok (Json.obj [("access_token", Json.str "")])
      env401 "w" "q" "d" "dir").2 rfl).2.1,
   ((C9_failed_get_token_overwrites mTok (Json.obj [("access_token", Json.str "")])
      env401 "w" "q" "d" "dir").2 rfl).2.2.1⟩

/-- Counterexample to C9 as stated: with a previously acquired token
and an identity response mapping the access token to the empty string,
`get_token` fails, yet the token field is left holding the empty string
— not the absent value — and a subsequent authenticated operation does
not fail with the not-authenticated error (here it reaches the network
and fails with ApiError 401 instead). -/
theorem C9_counterexample_empty_token :
    mTok.access_token = some "tk" ∧
    (mTok.get_token (Json.obj [("access_token", Json.str "")])).1
      = .error .tokenError ∧
    (mTok.get_token (Json.obj [("access_token", Json.str "")])).2.access_token
      ≠ none ∧
    ((mTok.get_token (Json.obj [("access_token", Json.str "")])).2.get_list_of_datasets
        env401 "w").res = .error (.apiError 401 "Unauthorized") ∧
    ((mTok.get_token (Json.obj [("access_token", Json.str "")])).2.get_list_of_datasets
        env401 "w").res ≠ .error .notAuthenticated := by
  refine ⟨rfl, rfl, by decide, rfl, ?_⟩
  intro hc
  exact absurd (Except.error.inj hc) (by decide)
